/-
Verification of the Infographic_Backend marketing-asset pipeline.

Shallow embedding of the Python sources (src/utils.py, src/image_generator.py,
src/supabase_storage.py, src/supabase_db.py, src/main.py, src/app.py) as Lean
definitions, together with theorems settling the specification claims.

External effects (HTTP requests, Supabase round trips, the filesystem, clocks
and UUID generation) are modelled as explicit environment values: an
`Except Unit _` field is `.error ()` when the corresponding Python call raises
and `.ok _` when it returns.  try/except blocks are translated as matches on
those results, so "this function never raises" becomes the provable statement
that the embedded function always returns `Except.ok`.
-/
import Mathlib

/- Characters that the hygiene of this file builds by code point:
   backtick (96), left brace (123), right brace (125). -/
def btickChar : Char := Char.ofNat 96

def lbraceChar : Char := Char.ofNat 123

def rbraceChar : Char := Char.ofNat 125

/-
src/utils.py, parse_llm_json:

    cleaned = re.sub(r"```(?:json)?", "", text, flags=re.IGNORECASE).strip()
    cleaned = cleaned.strip('`').strip()
    try: return json.loads(cleaned)
    except json.JSONDecodeError as e:
        start = cleaned.find('{'); end = cleaned.rfind('}') + 1
        if start != -1 and end != 0:
            try: return json.loads(cleaned[start:end])
            except: pass
        raise ValueError(...)

`json.loads` is the Python standard library, not repository code; the
embedding is parametric in `loads : String -> Option A` (`none` = the parse
raised).  Everything else is translated concretely.
-/

/-- The `re.sub(r"```(?:json)?", "", text, flags=re.IGNORECASE)` pass: delete
every occurrence of three backticks, together with an immediately following
case-insensitive `json` when present (the regex prefers the longer match). -/
def stripFencesAux : Nat → List Char → List Char
  | _, [] => []
  | skip + 1, _ :: rest => stripFencesAux skip rest
  | 0, c :: rest =>
    if c = btickChar ∧ rest.take 2 = [btickChar, btickChar] then
      (if ((rest.drop 2).take 4).map Char.toLower = ['j', 's', 'o', 'n'] then
        stripFencesAux 6 rest
      else
        stripFencesAux 2 rest)
    else
      c :: stripFencesAux 0 rest

/-- Entry point of the fence-removal pass. -/
def stripFences (l : List Char) : List Char := stripFencesAux 0 l

/-- Python `str.strip(...)`: drop the matching characters from both ends. -/
def stripEdgesWhile (p : Char → Bool) (l : List Char) : List Char :=
  ((l.dropWhile p).reverse.dropWhile p).reverse

/-- The full cleaning pipeline of parse_llm_json before the first parse:
fence removal, `.strip()`, `.strip('` + `')`, `.strip()`. -/
def cleanFenced (text : String) : String :=
  String.mk (stripEdgesWhile Char.isWhitespace
    (stripEdgesWhile (fun c => c == btickChar)
      (stripEdgesWhile Char.isWhitespace (stripFences text.data))))

/-- Index of the first occurrence of a character (Python `str.find`, with
`none` standing for `-1`). -/
def firstIdxOf (c : Char) : List Char → Option Nat
  | [] => none
  | x :: rest => if x = c then some 0 else (firstIdxOf c rest).map (fun i => i + 1)

/-- Index of the last occurrence of a character (Python `str.rfind`). -/
def lastIdxOf (c : Char) (l : List Char) : Option Nat :=
  (firstIdxOf c l.reverse).map (fun i => l.length - 1 - i)

/-- The salvage attempt of parse_llm_json: when the cleaned text has a `\x7b`
and a `\x7d`, parse the slice `cleaned[start:end]` between the first `\x7b`
and the last `\x7d`; otherwise there is nothing to attempt. -/
def salvageLoad {α : Type} (loads : String → Option α) (cleaned : String) : Option α :=
  match firstIdxOf lbraceChar cleaned.data, lastIdxOf rbraceChar cleaned.data with
  | some s, some e => loads (String.mk ((cleaned.data.drop s).take (e + 1 - s)))
  | _, _ => none

/-- src/utils.py parse_llm_json: clean, strict parse, salvage parse, raise. -/
def parse_llm_json {α : Type} (loads : String → Option α) (text : String) :
    Except String α :=
  let cleaned := cleanFenced text
  match loads cleaned with
  | some j => Except.ok j
  | none =>
    match salvageLoad loads cleaned with
    | some j => Except.ok j
    | none => Except.error "LLM did not return valid JSON"

/-- C9: parse_llm_json first strips code-fence markers and attempts a strict
parse of the cleaned text; if that fails it attempts to salvage the slice
between the first opening brace and the last closing brace; and it raises a
parse error if and only if both attempts fail. -/
theorem parse_llm_json_strict_then_salvage {α : Type}
    (loads : String → Option α) (text : String) :
    (∀ j, loads (cleanFenced text) = some j →
      parse_llm_json loads text = Except.ok j) ∧
    (∀ j, loads (cleanFenced text) = none →
      salvageLoad loads (cleanFenced text) = some j →
      parse_llm_json loads text = Except.ok j) ∧
    ((∃ e, parse_llm_json loads text = Except.error e) ↔
      (loads (cleanFenced text) = none ∧
        salvageLoad loads (cleanFenced text) = none)) := by
  unfold parse_llm_json
  cases h1 : loads (cleanFenced text) with
  | some j => simp [h1]
  | none =>
    cases h2 : salvageLoad loads (cleanFenced text) with
    | some j => simp [h1, h2]
    | none => simp [h1, h2]

/-- A concrete stand-in for `json.loads` used by the witness: accepts exactly
the two-character object text. -/
def loadsOnlyBraces : String → Option Nat :=
  fun s => if s = "\x7ba\x7d" then some 1 else none

/-- Witness for C9: a fenced payload parses via the strict attempt after
cleaning, and an input with no braces fails both attempts and errors. -/
theorem parse_llm_json_strict_then_salvage_witness :
    parse_llm_json loadsOnlyBraces "```json\n\x7ba\x7d\n```" = Except.ok 1 ∧
    (∃ e, parse_llm_json loadsOnlyBraces "no json here" = Except.error e) :=
  ⟨(parse_llm_json_strict_then_salvage loadsOnlyBraces
      "```json\n\x7ba\x7d\n```").1 1 (by decide),
   (parse_llm_json_strict_then_salvage loadsOnlyBraces
      "no json here").2.2.mpr ⟨by decide, by decide⟩⟩

/-
src/image_generator.py, generate_single_image_a2e (the External Generation
Client).  The submit round trip (requests.post + raise_for_status + json
decoding + key access) is one environment value: `.error ()` when any of it
raises, `.ok resp` when the engine answered with a decoded body.  The poll
loop observes one environment entry per 3-second iteration: `.error ()` when
the GET / json decoding raised, `.ok resp` when a status document came back.
-/

/-- Decoded body of the submit response: the application `code` field and the
optional `data._id` job identifier (a missing identifier makes the Python
`data["data"]["_id"]` access raise KeyError). -/
structure SubmitResp where
  code : Int
  taskId : Option String
deriving DecidableEq

/-- Decoded body of one poll response: `data.get("current_status")` and
`data.get("image_urls", [])`. -/
structure PollResp where
  status : Option String
  image_urls : List String
deriving DecidableEq

/-- Environment of one generate_single_image_a2e call. -/
structure A2EEnv where
  hasCreds : Bool
  submit : Except Unit SubmitResp
  poll : List (Except Unit PollResp)

/-- Outcome of the client: `failure` is the Python `return None`, `success`
carries the produced URL list, and `diverged` marks a run whose observation
list never reaches a terminal status — the loop would still be polling (there
is no overall timeout). -/
inductive A2EResult where
  | diverged : A2EResult
  | failure : A2EResult
  | success : List String → A2EResult
deriving DecidableEq

/-- The `while True` polling loop of generate_single_image_a2e: swallow any
exception and keep polling; stop at the first `completed` or `failed`
status. -/
def pollLoop : List (Except Unit PollResp) → A2EResult
  | [] => A2EResult.diverged
  | Except.error _ :: rest => pollLoop rest
  | Except.ok r :: rest =>
    if r.status = some "completed" then
      A2EResult.success r.image_urls
    else if r.status = some "failed" then
      A2EResult.failure
    else
      pollLoop rest

/-- src/image_generator.py generate_single_image_a2e.  The submit phase
(lines 24-43) sits inside one try/except returning None; an application
code other than 0 also returns None from inside the try. -/
def generate_single_image_a2e (env : A2EEnv) : Except Unit A2EResult :=
  if env.hasCreds = false then
    Except.ok A2EResult.failure
  else
    match env.submit with
    | Except.error _ => Except.ok A2EResult.failure
    | Except.ok resp =>
      if resp.code ≠ 0 then
        Except.ok A2EResult.failure
      else
        match resp.taskId with
        | none => Except.ok A2EResult.failure
        | some _ => Except.ok (pollLoop env.poll)

/-- A poll observation is terminal when it decoded successfully and reports
`completed` or `failed`. -/
def isTerminalPoll : Except Unit PollResp → Bool
  | Except.error _ => false
  | Except.ok r => r.status = some "completed" ∨ r.status = some "failed"

/-- The client never raises past its boundary: every environment yields an
`Except.ok` outcome. -/
theorem generate_single_image_a2e_total (env : A2EEnv) :
    ∃ v, generate_single_image_a2e env = Except.ok v := by
  obtain ⟨creds, submit, poll⟩ := env
  cases creds with
  | false => exact ⟨A2EResult.failure, rfl⟩
  | true =>
    cases submit with
    | error e => exact ⟨A2EResult.failure, rfl⟩
    | ok resp =>
      obtain ⟨c, t⟩ := resp
      by_cases hc : c = 0 <;> cases t <;> simp [generate_single_image_a2e, hc]

/-- C7: submit failures (missing credentials, a raising submit round trip, a
missing job id, or an application code other than 0) immediately return
Failure without touching the poll phase; the poll loop swallows raising
iterations and non-terminal statuses and continues; it never returns while no
terminal status has been observed (no overall timeout); the first terminal
status decides the outcome — the URL list on `completed`, Failure on
`failed`; and the client never raises. -/
theorem generate_single_image_a2e_spec :
    (∀ s p, generate_single_image_a2e ⟨false, s, p⟩ = Except.ok A2EResult.failure) ∧
    (∀ p, generate_single_image_a2e ⟨true, Except.error (), p⟩ =
      Except.ok A2EResult.failure) ∧
    (∀ c t p, c ≠ 0 →
      generate_single_image_a2e ⟨true, Except.ok ⟨c, t⟩, p⟩ =
        Except.ok A2EResult.failure) ∧
    (∀ p, generate_single_image_a2e ⟨true, Except.ok ⟨0, none⟩, p⟩ =
      Except.ok A2EResult.failure) ∧
    (∀ e rest, pollLoop (Except.error e :: rest) = pollLoop rest) ∧
    (∀ r rest, r.status ≠ some "completed" → r.status ≠ some "failed" →
      pollLoop (Except.ok r :: rest) = pollLoop rest) ∧
    (∀ p, (∀ o ∈ p, isTerminalPoll o = false) → pollLoop p = A2EResult.diverged) ∧
    (∀ r rest, r.status = some "completed" →
      pollLoop (Except.ok r :: rest) = A2EResult.success r.image_urls) ∧
    (∀ r rest, r.status = some "failed" →
      pollLoop (Except.ok r :: rest) = A2EResult.failure) ∧
    (∀ env, ∃ v, generate_single_image_a2e env = Except.ok v) := by
  refine ⟨?_, ?_, ?_, ?_, ?_, ?_, ?_, ?_, ?_, generate_single_image_a2e_total⟩
  · intro s p; simp [generate_single_image_a2e]
  · intro p; simp [generate_single_image_a2e]
  · intro c t p hc; simp [generate_single_image_a2e, hc]
  · intro p; simp [generate_single_image_a2e]
  · intro e rest; simp [pollLoop]
  · intro r rest h1 h2; simp [pollLoop, h1, h2]
  · intro p hp
    induction p with
    | nil => simp [pollLoop]
    | cons o rest ih =>
      have ho := hp o (by simp)
      have hrest : ∀ o ∈ rest, isTerminalPoll o = false := by
        intro x hx; exact hp x (by simp [hx])
      cases o with
      | error e => simpa [pollLoop] using ih hrest
      | ok r =>
        simp only [isTerminalPoll] at ho
        have h1 : r.status ≠ some "completed" := by
          intro h; simp [h] at ho
        have h2 : r.status ≠ some "failed" := by
          intro h; simp [h] at ho
        simpa [pollLoop, h1, h2] using ih hrest
  · intro r rest h; simp [pollLoop, h]
  · intro r rest h
    have hne : r.status ≠ some "completed" := by rw [h]; simp
    simp [pollLoop, hne, h]

/-- Witness for C7: each conjunct applied at a concrete input — a failing
submit, a code-17 rejection, a transient error followed by a running status
followed by completion, a never-terminal trace, and a failed trace. -/
theorem generate_single_image_a2e_spec_witness :
    generate_single_image_a2e ⟨true, Except.error (), []⟩ =
      Except.ok A2EResult.failure ∧
    (17 : Int) ≠ 0 ∧
    generate_single_image_a2e ⟨true, Except.ok ⟨17, some "t"⟩, []⟩ =
      Except.ok A2EResult.failure ∧
    (∀ o ∈ [Except.error (), Except.ok (⟨some "initiating", []⟩ : PollResp)],
      isTerminalPoll o = false) ∧
    pollLoop [Except.error (), Except.ok (⟨some "initiating", []⟩ : PollResp)] =
      A2EResult.diverged ∧
    (⟨some "completed", ["u1", "u2"]⟩ : PollResp).status = some "completed" ∧
    pollLoop [Except.ok (⟨some "completed", ["u1", "u2"]⟩ : PollResp)] =
      A2EResult.success ["u1", "u2"] ∧
    pollLoop [Except.ok (⟨some "failed", []⟩ : PollResp)] = A2EResult.failure :=
  ⟨generate_single_image_a2e_spec.2.1 [],
   by decide,
   generate_single_image_a2e_spec.2.2.1 17 (some "t") [] (by decide),
   by decide,
   generate_single_image_a2e_spec.2.2.2.2.2.2.1
     [Except.error (), Except.ok (⟨some "initiating", []⟩ : PollResp)] (by decide),
   rfl,
   generate_single_image_a2e_spec.2.2.2.2.2.2.2.1
     (⟨some "completed", ["u1", "u2"]⟩ : PollResp) [] rfl,
   generate_single_image_a2e_spec.2.2.2.2.2.2.2.2.1
     (⟨some "failed", []⟩ : PollResp) [] rfl⟩

/-
src/supabase_storage.py, SupabaseStorage.upload_image_from_url.  The whole
body sits in one try/except returning None.  Effects: `download` is the
requests.get + raise_for_status round trip; `upload1` the standard Supabase
upload; `upload2` the temp-file fallback upload (tempfile write, reopen,
upload, unlink — any raise there reaches the `except Exception as e` at the
Supabase level and control falls through to the local branch); `localWrite`
the os.makedirs + open + write of the local fallback (a raise there escapes
to the outer except and yields None).  The bucket listing at lines 40-48 only
prints and is dropped.  `publicUrl` is supabase_config.get_storage_url.
-/

/-- Environment of one upload_image_from_url call. -/
structure StorageEnv where
  download : Except Unit Unit
  configured : Bool
  clientPresent : Bool
  upload1 : Except Unit Unit
  upload2 : Except Unit Unit
  localWrite : Except Unit Unit
  publicUrl : String → String
  timestamp : String
  uniqueId : String

/-- The dict returned by upload_image_from_url on success. -/
structure StorageInfo where
  storage_path : String
  public_url : String
  filename : String
  storage_type : String
deriving DecidableEq

/-- `(user_id or "user").replace('-', '')[:10]` — removing every hyphen is
`.replace('-', '')`. -/
def safeUserIdOf (user_id : String) : String :=
  String.mk (((if user_id.isEmpty then "user" else user_id).data.filter
    (fun c => c ≠ '-')).take 10)

/-- `filename.split("/")[-1]`. -/
def lastPathSegment (filename : String) : String :=
  (filename.splitOn "/").getLastD ""

/-- src/supabase_storage.py SupabaseStorage.upload_image_from_url. -/
def upload_image_from_url (env : StorageEnv)
    (image_url user_id generation_id : String) : Option StorageInfo :=
  match env.download with
  | Except.error _ => none
  | Except.ok _ =>
    let safe_user_id := safeUserIdOf user_id
    let filename :=
      generation_id ++ "/" ++ safe_user_id ++ "_" ++ env.timestamp ++ "_" ++
        env.uniqueId ++ ".png"
    let supabaseAttempt : Option StorageInfo :=
      if env.configured ∧ env.clientPresent then
        match env.upload1 with
        | Except.ok _ =>
          some ⟨filename, env.publicUrl filename, lastPathSegment filename,
            "supabase"⟩
        | Except.error _ =>
          match env.upload2 with
          | Except.ok _ =>
            some ⟨filename, env.publicUrl filename, lastPathSegment filename,
              "supabase"⟩
          | Except.error _ => none
      else none
    match supabaseAttempt with
    | some info => some info
    | none =>
      match env.localWrite with
      | Except.error _ => none
      | Except.ok _ =>
        let local_filename :=
          safe_user_id ++ "_" ++ env.timestamp ++ "_" ++ env.uniqueId ++ ".png"
        let relative_path := "local_images/" ++ generation_id ++ "/" ++ local_filename
        some ⟨relative_path, "/" ++ relative_path, local_filename, "local"⟩

/-- A concrete environment in which both Supabase upload attempts raise while
the download and the local write succeed. -/
def storageEnvUploadFails : StorageEnv :=
  ⟨Except.ok (), true, true, Except.error (), Except.error (), Except.ok (),
    fun s => s, "ts", "uid8"⟩

/-- Counterexample to C5 as stated: when the upload to durable object storage
fails, the transfer does NOT return Failure — it falls back to ephemeral
local storage and returns a success record with storage_type "local". -/
theorem upload_failure_falls_back_to_local :
    upload_image_from_url storageEnvUploadFails "http://a2e/img.png" "user-1" "gen1" =
      some ⟨"local_images/gen1/user1_ts_uid8.png",
        "/local_images/gen1/user1_ts_uid8.png", "user1_ts_uid8.png", "local"⟩ := by
  decide

/-- C5 amended: when the upload to durable object storage fails (both the
standard and the temp-file Supabase attempts raise, or Supabase is not even
configured/connected), the transfer falls back to writing the bytes to
ephemeral local storage and returns a record marked storage_type "local";
it returns Failure exactly when downloading the source bytes raises, or when
no Supabase upload succeeds and the local write raises too. -/
theorem upload_image_from_url_fallback_spec (env : StorageEnv)
    (image_url user_id generation_id : String) :
    (env.download = Except.ok () → env.configured = true →
      env.clientPresent = true → env.upload1 = Except.error () →
      env.upload2 = Except.error () → env.localWrite = Except.ok () →
      ∃ info, upload_image_from_url env image_url user_id generation_id =
        some info ∧ info.storage_type = "local") ∧
    (upload_image_from_url env image_url user_id generation_id = none ↔
      (env.download = Except.error () ∨
        ((¬(env.configured = true ∧ env.clientPresent = true) ∨
            (env.upload1 = Except.error () ∧ env.upload2 = Except.error ())) ∧
          env.localWrite = Except.error ()))) := by
  obtain ⟨dl, cfg, cli, up1, up2, lw, pub, ts, uq⟩ := env
  obtain dl | dlu := dl
  · obtain u := dl
    constructor
    · intro h; cases h
    · simp [upload_image_from_url]
  · obtain u := dlu
    cases cfg <;> cases cli <;>
      obtain e1 | u1 := up1 <;>
      obtain e2 | u2 := up2 <;>
      obtain el | ul := lw <;>
      simp [upload_image_from_url]

/-- Witness for C5's amended claim: the fallback conjunct at the concrete
failing-upload environment, and the Failure characterization there. -/
theorem upload_image_from_url_fallback_spec_witness :
    (∃ info, upload_image_from_url storageEnvUploadFails "http://a2e/img.png"
        "user-1" "gen1" = some info ∧ info.storage_type = "local") ∧
    (upload_image_from_url storageEnvUploadFails "http://a2e/img.png"
        "user-1" "gen1" ≠ none) :=
  ⟨(upload_image_from_url_fallback_spec storageEnvUploadFails
      "http://a2e/img.png" "user-1" "gen1").1 rfl rfl rfl rfl rfl rfl,
   fun h => by
    have := (upload_image_from_url_fallback_spec storageEnvUploadFails
      "http://a2e/img.png" "user-1" "gen1").2.mp h
    simp [storageEnvUploadFails] at this⟩

/-
src/supabase_db.py MarketingDB.add_generated_image and
src/image_generator.py process_single_image (the Per-Item Worker).

add_generated_image first uploads via the Record Store's storage collaborator;
a failed upload returns None before any record is built.  On upload success it
builds the image_data dict; with a Supabase client it tries the table insert —
on success it bumps the counter and returns response.data[0] (Supabase echoes
the inserted row, modelled as the built record), and on a raising insert or an
empty-data response it falls through to the in-memory store and returns the
record.  Either way a record is persisted (PersistEvent) only after the upload
succeeded.
-/

/-- Python `s[:n]`. -/
def strTake (s : String) (n : Nat) : String := String.mk (s.data.take n)

/-- The marketing_images row built by add_generated_image. -/
structure ImageRecord where
  id : String
  generation_id : String
  user_id : String
  angle_name : String
  image_summary : String
  prompt : String
  image_url : String
  supabase_storage_path : String
  storage_type : String
  image_index : Nat
  generation_time : Nat
  created_at : String
deriving DecidableEq

/-- Where a GeneratedImage record got persisted: the Supabase table insert, or
the in-memory fallback append. -/
inductive PersistEvent where
  | supabaseInsert : ImageRecord → PersistEvent
  | memoryAppend : ImageRecord → PersistEvent
deriving DecidableEq

/-- Environment of one Per-Item Worker run: the external engine, the storage
transfer, the Record Store client and insert round trip, and the ambient
clock/uuid values. `insertOutcome` is `.error ()` when the insert raises and
`.ok b` when it executes with `b` = "response.data is non-empty". -/
structure WorkerEnv where
  a2e : A2EEnv
  storage : StorageEnv
  dbClient : Bool
  insertOutcome : Except Unit Bool
  elapsed : Nat
  newId : String
  now : String

/-- src/supabase_db.py MarketingDB.add_generated_image.  The increment of
completed_images on insert success only touches the session counter (see the
two-phase increment model below) and is not part of the returned value. -/
def add_generated_image (env : WorkerEnv)
    (generation_id user_id angle_name image_summary prompt image_url : String)
    (image_index : Nat) (generation_time : Nat) :
    Option ImageRecord × List PersistEvent :=
  match upload_image_from_url env.storage image_url user_id generation_id with
  | none => (none, [])
  | some storage_info =>
    let image_data : ImageRecord :=
      { id := env.newId
        generation_id := generation_id
        user_id := user_id
        angle_name := strTake angle_name 255
        image_summary := if image_summary.isEmpty then "" else strTake image_summary 1000
        prompt := if prompt.isEmpty then "" else strTake prompt 2000
        image_url := storage_info.public_url
        supabase_storage_path := storage_info.storage_path
        storage_type := storage_info.storage_type
        image_index := image_index
        generation_time := generation_time
        created_at := env.now }
    if env.dbClient then
      match env.insertOutcome with
      | Except.ok true => (some image_data, [PersistEvent.supabaseInsert image_data])
      | _ => (some image_data, [PersistEvent.memoryAppend image_data])
    else
      (some image_data, [PersistEvent.memoryAppend image_data])

/-- One creative item of the batch, with the `.get` defaults of the source. -/
structure CreativeItem where
  angle_name : Option String
  prompt : Option String
  summary : Option String
deriving DecidableEq

/-- Worker outcome: `done r` is a future that completed with value `r`
(`none` = the Python worker returned None); `diverged` marks a worker whose
engine call never reaches a terminal status, so its future never completes. -/
inductive WorkerOut where
  | diverged : WorkerOut
  | done : Option ImageRecord → WorkerOut

/-- src/image_generator.py process_single_image. -/
def process_single_image (item : CreativeItem) (index : Nat)
    (generation_id user_id : String) (env : WorkerEnv) :
    Except Unit (WorkerOut × List PersistEvent) :=
  let angle := item.angle_name.getD ("Angle_" ++ toString index)
  let raw_prompt := item.prompt.getD ""
  let summary := item.summary.getD ""
  match generate_single_image_a2e env.a2e with
  | Except.error e => Except.error e
  | Except.ok A2EResult.diverged => Except.ok (WorkerOut.diverged, [])
  | Except.ok A2EResult.failure => Except.ok (WorkerOut.done none, [])
  | Except.ok (A2EResult.success urls) =>
    match urls with
    | [] => Except.ok (WorkerOut.done none, [])
    | image_url :: _ =>
      let saved := add_generated_image env generation_id user_id angle summary
        raw_prompt image_url index env.elapsed
      Except.ok (WorkerOut.done saved.1, saved.2)

/-- C10: the Per-Item Worker never raises past its boundary (every internal
failure becomes the None sentinel inside an `Except.ok`), and a
GeneratedImage record is persisted only after the external generation
returned at least one URL and the artifact transfer of that first URL
succeeded; any earlier failure persists nothing. -/
theorem process_single_image_no_raise_persist_gated (item : CreativeItem)
    (index : Nat) (generation_id user_id : String) (env : WorkerEnv) :
    (∃ v, process_single_image item index generation_id user_id env = Except.ok v) ∧
    (∀ out events,
      process_single_image item index generation_id user_id env =
        Except.ok (out, events) →
      events ≠ [] →
      ∃ u urls, generate_single_image_a2e env.a2e =
          Except.ok (A2EResult.success (u :: urls)) ∧
        ∃ info, upload_image_from_url env.storage u user_id generation_id =
          some info) := by
  obtain ⟨v, hv⟩ := generate_single_image_a2e_total env.a2e
  constructor
  · unfold process_single_image
    rw [hv]
    cases v with
    | diverged => exact ⟨_, rfl⟩
    | failure => exact ⟨_, rfl⟩
    | success urls => cases urls <;> exact ⟨_, rfl⟩
  · intro out events hE hne
    unfold process_single_image at hE
    rw [hv] at hE
    cases v with
    | diverged =>
      simp only [Except.ok.injEq, Prod.mk.injEq] at hE
      exact absurd hE.2.symm hne
    | failure =>
      simp only [Except.ok.injEq, Prod.mk.injEq] at hE
      exact absurd hE.2.symm hne
    | success urls =>
      cases urls with
      | nil =>
        simp only [Except.ok.injEq, Prod.mk.injEq] at hE
        exact absurd hE.2.symm hne
      | cons u rest =>
        cases hu : upload_image_from_url env.storage u user_id generation_id with
        | none =>
          simp only [add_generated_image, hu, Except.ok.injEq, Prod.mk.injEq] at hE
          exact absurd hE.2.symm hne
        | some info => exact ⟨u, rest, hv, info, hu⟩

/-- Concrete all-success worker environment for the witnesses. -/
def workerEnvOk : WorkerEnv :=
  { a2e := ⟨true, Except.ok ⟨0, some "t"⟩,
      [Except.ok (⟨some "completed", ["http://a2e/out.png"]⟩ : PollResp)]⟩
    storage := ⟨Except.ok (), true, true, Except.ok (), Except.ok (),
      Except.ok (), fun s => s, "ts", "u8"⟩
    dbClient := true
    insertOutcome := Except.ok true
    elapsed := 5
    newId := "id1"
    now := "now" }

/-- The record workerEnvOk produces for item ⟨"A","p","s"⟩ at index 0. -/
def recOk : ImageRecord :=
  { id := "id1", generation_id := "g1", user_id := "u1", angle_name := "A"
    image_summary := "s", prompt := "p", image_url := "g1/u1_ts_u8.png"
    supabase_storage_path := "g1/u1_ts_u8.png", storage_type := "supabase"
    image_index := 0, generation_time := 5, created_at := "now" }

/-- Witness for C10: on a concrete successful run the worker completes with a
saved record and one Supabase persist event, and the gating conclusion holds
there. -/
theorem process_single_image_no_raise_persist_gated_witness :
    (∃ v, process_single_image ⟨some "A", some "p", some "s"⟩ 0 "g1" "u1"
      workerEnvOk = Except.ok v) ∧
    (∃ u urls, generate_single_image_a2e workerEnvOk.a2e =
        Except.ok (A2EResult.success (u :: urls)) ∧
      ∃ info, upload_image_from_url workerEnvOk.storage u "u1" "g1" =
        some info) :=
  ⟨(process_single_image_no_raise_persist_gated ⟨some "A", some "p", some "s"⟩
      0 "g1" "u1" workerEnvOk).1,
   (process_single_image_no_raise_persist_gated ⟨some "A", some "p", some "s"⟩
      0 "g1" "u1" workerEnvOk).2
    (WorkerOut.done (some recOk)) [PersistEvent.supabaseInsert recOk]
    rfl (List.cons_ne_nil _ _)⟩

/-
src/image_generator.py, generate_images_parallel (the Batch Controller).
Lines 113-171: empty-input early return, one future per enumerated item,
collection in completion order with a per-future try/except (a raising future
is logged and skipped; a None result is skipped), and a final stable
ascending sort by the `image_index` key.  `order` is the completion order in
which `concurrent.futures.as_completed` yields the futures — any permutation
of the submitted indices; `envs i` is the environment the worker of item `i`
runs against.  A worker whose engine call diverges never completes and the
real loop would block; the batch theorems therefore carry the hypothesis that
every worker completes.
-/

/-- One insertion step of the stable ascending sort by `image_index`
(Python `list.sort(key=lambda x: x.get("image_index", 0))`). -/
def insertByIndex (r : ImageRecord) : List ImageRecord → List ImageRecord
  | [] => [r]
  | s :: rest =>
    if r.image_index < s.image_index then
      r :: s :: rest
    else
      s :: insertByIndex r rest

/-- Stable ascending insertion sort by `image_index`. -/
def sortByIndex : List ImageRecord → List ImageRecord
  | [] => []
  | r :: rest => insertByIndex r (sortByIndex rest)

/-- The prompts payload handed to the controller
(`prompts_data.get("prompts", [])`). -/
structure PromptsData where
  prompts : List CreativeItem

/-- Observable outcome of one batch run: the returned list, and the item
indices submitted to the thread pool (empty = no workers scheduled, hence no
network calls issued by this call). -/
structure BatchOut where
  results : List ImageRecord
  scheduled : List Nat
deriving DecidableEq

/-- src/image_generator.py generate_images_parallel. -/
def generate_images_parallel (prompts_data : PromptsData)
    (generation_id user_id : String) (envs : Nat → WorkerEnv)
    (order : List Nat) : BatchOut :=
  let prompts_list := prompts_data.prompts
  if prompts_list.isEmpty then
    ⟨[], []⟩
  else
    let collected := order.filterMap (fun i =>
      match prompts_list[i]? with
      | none => none
      | some item =>
        match process_single_image item i generation_id user_id (envs i) with
        | Except.ok (WorkerOut.done (some r), _) => some r
        | _ => none)
    ⟨sortByIndex collected, List.range prompts_list.length⟩

/-- The record worker `i` contributes to the collection loop: its saved image
when the future completed with a non-None result, and `none` when the item
failed, the future raised, the index is out of range, or the worker never
completes. -/
def workerRecord (prompts_data : PromptsData) (generation_id user_id : String)
    (envs : Nat → WorkerEnv) (i : Nat) : Option ImageRecord :=
  match prompts_data.prompts[i]? with
  | none => none
  | some item =>
    match process_single_image item i generation_id user_id (envs i) with
    | Except.ok (WorkerOut.done (some r), _) => some r
    | _ => none

/-- Worker `i`'s future completes (it does not diverge in the poll loop). -/
def workerDone (item : CreativeItem) (index : Nat)
    (generation_id user_id : String) (env : WorkerEnv) : Bool :=
  match process_single_image item index generation_id user_id env with
  | Except.ok (WorkerOut.diverged, _) => false
  | _ => true

/-- Item `i` of the batch succeeds end to end. -/
def itemSucceeds (prompts_data : PromptsData) (generation_id user_id : String)
    (envs : Nat → WorkerEnv) (i : Nat) : Bool :=
  (workerRecord prompts_data generation_id user_id envs i).isSome

theorem generate_images_parallel_eq (prompts_data : PromptsData)
    (generation_id user_id : String) (envs : Nat → WorkerEnv)
    (order : List Nat) :
    generate_images_parallel prompts_data generation_id user_id envs order =
      if prompts_data.prompts.isEmpty then ⟨[], []⟩
      else
        ⟨sortByIndex (order.filterMap
            (workerRecord prompts_data generation_id user_id envs)),
          List.range prompts_data.prompts.length⟩ := rfl

theorem insertByIndex_perm (r : ImageRecord) (l : List ImageRecord) :
    (insertByIndex r l).Perm (r :: l) := by
  induction l with
  | nil => exact List.Perm.refl _
  | cons s rest ih =>
    unfold insertByIndex
    by_cases h : r.image_index < s.image_index
    · simp only [if_pos h]
      exact List.Perm.refl _
    · simp only [if_neg h]
      exact (ih.cons s).trans (List.Perm.swap r s rest)

theorem sortByIndex_perm (l : List ImageRecord) : (sortByIndex l).Perm l := by
  induction l with
  | nil => exact List.Perm.refl _
  | cons r rest ih =>
    exact (insertByIndex_perm r (sortByIndex rest)).trans (ih.cons r)

theorem insertByIndex_pairwise (r : ImageRecord) (l : List ImageRecord)
    (h : l.Pairwise (fun a b => a.image_index ≤ b.image_index)) :
    (insertByIndex r l).Pairwise (fun a b => a.image_index ≤ b.image_index) := by
  induction l with
  | nil => simp [insertByIndex]
  | cons s rest ih =>
    rw [List.pairwise_cons] at h
    unfold insertByIndex
    by_cases hc : r.image_index < s.image_index
    · simp only [if_pos hc]
      rw [List.pairwise_cons]
      refine ⟨?_, List.pairwise_cons.mpr h⟩
      intro y hy
      rcases List.mem_cons.mp hy with hy | hy
      · exact hy ▸ Nat.le_of_lt hc
      · exact Nat.le_trans (Nat.le_of_lt hc) (h.1 y hy)
    · simp only [if_neg hc]
      rw [List.pairwise_cons]
      refine ⟨?_, ih h.2⟩
      intro y hy
      rcases List.mem_cons.mp ((insertByIndex_perm r rest).mem_iff.mp hy) with hy | hy
      · exact hy ▸ Nat.le_of_not_lt hc
      · exact h.1 y hy

theorem sortByIndex_pairwise (l : List ImageRecord) :
    (sortByIndex l).Pairwise (fun a b => a.image_index ≤ b.image_index) := by
  induction l with
  | nil => simp [sortByIndex]
  | cons r rest ih => exact insertByIndex_pairwise r (sortByIndex rest) ih

theorem filterMap_map_index (f : Nat → Option ImageRecord)
    (hf : ∀ i r, f i = some r → r.image_index = i) (order : List Nat) :
    ((order.filterMap f).map (fun r => r.image_index)) =
      order.filter (fun i => (f i).isSome) := by
  induction order with
  | nil => rfl
  | cons i rest ih =>
    cases hfi : f i with
    | none => simp [List.filterMap_cons, hfi, List.filter_cons, ih]
    | some r => simp [List.filterMap_cons, hfi, List.filter_cons, ih, hf i r hfi]

theorem add_generated_image_index (env : WorkerEnv)
    (generation_id user_id angle_name image_summary prompt image_url : String)
    (image_index generation_time : Nat) (r : ImageRecord)
    (h : (add_generated_image env generation_id user_id angle_name
        image_summary prompt image_url image_index generation_time).1 = some r) :
    r.image_index = image_index := by
  unfold add_generated_image at h
  cases hu : upload_image_from_url env.storage image_url user_id generation_id with
  | none => rw [hu] at h; cases h
  | some info =>
    rw [hu] at h
    cases hdb : env.dbClient with
    | false =>
      simp only [hdb, Bool.false_eq_true, if_false, Option.some.injEq] at h
      rw [← h]
    | true =>
      cases hio : env.insertOutcome with
      | error e =>
        simp only [hdb, hio, if_true, Option.some.injEq] at h
        rw [← h]
      | ok b =>
        cases b <;>
          simp only [hdb, hio, if_true, Option.some.injEq] at h <;>
          rw [← h]

theorem process_single_image_index (item : CreativeItem) (index : Nat)
    (generation_id user_id : String) (env : WorkerEnv) (r : ImageRecord)
    (events : List PersistEvent)
    (h : process_single_image item index generation_id user_id env =
      Except.ok (WorkerOut.done (some r), events)) :
    r.image_index = index := by
  obtain ⟨v, hv⟩ := generate_single_image_a2e_total env.a2e
  unfold process_single_image at h
  rw [hv] at h
  cases v with
  | diverged => simp at h
  | failure => simp at h
  | success urls =>
    cases urls with
    | nil => simp at h
    | cons u rest =>
      simp only [Except.ok.injEq, Prod.mk.injEq, WorkerOut.done.injEq] at h
      exact add_generated_image_index env generation_id user_id _ _ _ u index
        env.elapsed r h.1

theorem workerRecord_index (prompts_data : PromptsData)
    (generation_id user_id : String) (envs : Nat → WorkerEnv) (i : Nat)
    (r : ImageRecord)
    (h : workerRecord prompts_data generation_id user_id envs i = some r) :
    r.image_index = i := by
  unfold workerRecord at h
  cases hp : prompts_data.prompts[i]? with
  | none => simp only [hp] at h; exact Option.noConfusion h
  | some item =>
    simp only [hp] at h
    cases hps : process_single_image item i generation_id user_id (envs i) with
    | error e => simp only [hps] at h; exact Option.noConfusion h
    | ok v =>
      obtain ⟨out, events⟩ := v
      cases out with
      | diverged => simp only [hps] at h; exact Option.noConfusion h
      | done res =>
        cases res with
        | none => simp only [hps] at h; exact Option.noConfusion h
        | some r2 =>
          simp only [hps, Option.some.injEq] at h
          exact h ▸ process_single_image_index item i generation_id user_id
            (envs i) r2 events hps

/-- Helper: the Per-Item Worker is total (per-future `future.result()` never
raises), shared by the batch theorems. -/
theorem process_single_image_total (item : CreativeItem) (index : Nat)
    (generation_id user_id : String) (env : WorkerEnv) :
    ∃ v, process_single_image item index generation_id user_id env =
      Except.ok v := by
  obtain ⟨v, hv⟩ := generate_single_image_a2e_total env.a2e
  unfold process_single_image
  rw [hv]
  cases v with
  | diverged => exact ⟨_, rfl⟩
  | failure => exact ⟨_, rfl⟩
  | success urls => cases urls <;> exact ⟨_, rfl⟩

/-- C2: for every batch and every completion order of the workers, the
returned sequence lists exactly the successful items, with their
`image_index` values in ascending order of the items' original 0-based
indices: the mapped index sequence equals the ascending list of successful
original indices. -/
theorem generate_images_parallel_ordered (prompts_data : PromptsData)
    (generation_id user_id : String) (envs : Nat → WorkerEnv)
    (order : List Nat)
    (hperm : order.Perm (List.range prompts_data.prompts.length))
    (hterm : ∀ i ∈ order, ((prompts_data.prompts[i]?).all fun item =>
      workerDone item i generation_id user_id (envs i)) = true) :
    (generate_images_parallel prompts_data generation_id user_id envs
        order).results.map (fun r => r.image_index) =
      (List.range prompts_data.prompts.length).filter
        (itemSucceeds prompts_data generation_id user_id envs) := by
  rw [generate_images_parallel_eq]
  by_cases hemp : prompts_data.prompts.isEmpty
  · have h0 : prompts_data.prompts.length = 0 := by
      simp [List.isEmpty_iff.mp hemp]
    simp [hemp, h0]
  · simp only [if_neg hemp]
    have hf : ∀ i r, workerRecord prompts_data generation_id user_id envs i =
        some r → r.image_index = i :=
      fun i r h => workerRecord_index prompts_data generation_id user_id envs i r h
    have key_eq :
        ((order.filterMap (workerRecord prompts_data generation_id user_id
          envs)).map (fun r => r.image_index)) =
        order.filter (fun i => (workerRecord prompts_data generation_id user_id
          envs i).isSome) :=
      filterMap_map_index _ hf order
    have permAll :
        ((sortByIndex (order.filterMap (workerRecord prompts_data generation_id
          user_id envs))).map (fun r => r.image_index)).Perm
        ((List.range prompts_data.prompts.length).filter
          (itemSucceeds prompts_data generation_id user_id envs)) := by
      refine (((sortByIndex_perm _).map _).trans ?_)
      rw [key_eq]
      exact hperm.filter _
    have hRHSnodup :
        ((List.range prompts_data.prompts.length).filter
          (itemSucceeds prompts_data generation_id user_id envs)).Nodup :=
      (List.nodup_range prompts_data.prompts.length).filter _
    have hLHSnodup :
        ((sortByIndex (order.filterMap (workerRecord prompts_data generation_id
          user_id envs))).map (fun r => r.image_index)).Nodup :=
      permAll.symm.nodup hRHSnodup
    have hLHSle :
        ((sortByIndex (order.filterMap (workerRecord prompts_data generation_id
          user_id envs))).map (fun r => r.image_index)).Pairwise
          (fun a b : Nat => a ≤ b) :=
      (sortByIndex_pairwise _).map _ (fun a b hab => hab)
    have hLHSlt :
        ((sortByIndex (order.filterMap (workerRecord prompts_data generation_id
          user_id envs))).map (fun r => r.image_index)).Pairwise
          (fun a b : Nat => a < b) :=
      (hLHSle.and hLHSnodup).imp (fun hab => Nat.lt_of_le_of_ne hab.1 hab.2)
    have hRHSlt :
        ((List.range prompts_data.prompts.length).filter
          (itemSucceeds prompts_data generation_id user_id envs)).Pairwise
          (fun a b : Nat => a < b) :=
      (List.pairwise_lt_range prompts_data.prompts.length).filter _
    haveI : IsAntisymm Nat (fun a b : Nat => a < b) :=
      ⟨fun a b h1 h2 => absurd h1 (Nat.lt_asymm h2)⟩
    exact List.eq_of_perm_of_sorted permAll hLHSlt hRHSlt

/-- A two-item batch whose items both carry explicit fields. -/
def pdTwo : PromptsData :=
  ⟨[⟨some "A0", some "p0", some "s0"⟩, ⟨some "A1", some "p1", some "s1"⟩]⟩

/-- Every worker succeeds. -/
def envsOk : Nat → WorkerEnv := fun _ => workerEnvOk

/-- A worker environment whose submit round trip raises: the item fails. -/
def workerEnvFail : WorkerEnv :=
  { a2e := ⟨true, Except.error (), []⟩
    storage := ⟨Except.ok (), true, true, Except.ok (), Except.ok (),
      Except.ok (), fun s => s, "ts", "u8"⟩
    dbClient := true
    insertOutcome := Except.ok true
    elapsed := 0
    newId := "id0"
    now := "n0" }

/-- Item 0 fails, item 1 succeeds. -/
def envsMix : Nat → WorkerEnv := fun i => if i = 0 then workerEnvFail else workerEnvOk

/-- Every worker fails. -/
def envsFailAll : Nat → WorkerEnv := fun _ => workerEnvFail

/-- Witness for C2: a two-item batch completing in reversed order [1, 0]
still returns index sequence [0, 1]. -/
theorem generate_images_parallel_ordered_witness :
    ([1, 0].Perm (List.range pdTwo.prompts.length)) ∧
    (generate_images_parallel pdTwo "g" "u" envsOk [1, 0]).results.map
        (fun r => r.image_index) =
      (List.range pdTwo.prompts.length).filter
        (itemSucceeds pdTwo "g" "u" envsOk) ∧
    (generate_images_parallel pdTwo "g" "u" envsOk [1, 0]).results.map
        (fun r => r.image_index) = [0, 1] :=
  ⟨by decide,
   generate_images_parallel_ordered pdTwo "g" "u" envsOk [1, 0]
     (by decide) (by decide),
   by decide⟩

/-- C3: failures are isolated.  For every batch and completion order: a
record appears in the returned list exactly when its worker completed with a
non-None result (so each failed item is simply absent and each successful
item's record is exactly what its own worker produced, unaffected by the
other items); when every item fails the batch returns an empty list; and no
worker run raises, so the per-future collection never sees an exception and
the batch call itself never fails. -/
theorem generate_images_parallel_failures_isolated (prompts_data : PromptsData)
    (generation_id user_id : String) (envs : Nat → WorkerEnv)
    (order : List Nat)
    (hperm : order.Perm (List.range prompts_data.prompts.length))
    (hterm : ∀ i ∈ order, ((prompts_data.prompts[i]?).all fun item =>
      workerDone item i generation_id user_id (envs i)) = true) :
    (∀ r, r ∈ (generate_images_parallel prompts_data generation_id user_id
        envs order).results ↔
      ∃ i ∈ order, workerRecord prompts_data generation_id user_id envs i =
        some r) ∧
    ((∀ i ∈ order, workerRecord prompts_data generation_id user_id envs i =
        none) →
      (generate_images_parallel prompts_data generation_id user_id envs
        order).results = []) ∧
    (∀ i item, prompts_data.prompts[i]? = some item →
      ∃ v, process_single_image item i generation_id user_id (envs i) =
        Except.ok v) := by
  rw [generate_images_parallel_eq]
  by_cases hemp : prompts_data.prompts.isEmpty
  · have hnil : prompts_data.prompts = [] := List.isEmpty_iff.mp hemp
    have horder : order = [] := by
      have h0 : prompts_data.prompts.length = 0 := by simp [hnil]
      rw [h0] at hperm
      exact hperm.eq_nil
    refine ⟨?_, ?_, ?_⟩
    · intro r
      simp [hemp, horder]
    · intro _
      simp [hemp]
    · intro i item hsome
      rw [hnil] at hsome
      simp at hsome
  · refine ⟨?_, ?_, ?_⟩
    · intro r
      simp only [if_neg hemp]
      exact ((sortByIndex_perm _).mem_iff).trans List.mem_filterMap
    · intro hall
      simp only [if_neg hemp]
      have hc : order.filterMap (workerRecord prompts_data generation_id
          user_id envs) = [] := by
        rw [List.filterMap_eq_nil_iff]
        exact hall
      rw [hc]
      rfl
    · intro i item hsome
      exact process_single_image_total item i generation_id user_id (envs i)

/-- Witness for C3: with item 0 failing and item 1 succeeding the membership
characterization holds, only index 1 is returned, and an all-fail batch
returns the empty list. -/
theorem generate_images_parallel_failures_isolated_witness :
    ([0, 1].Perm (List.range pdTwo.prompts.length)) ∧
    (∀ r, r ∈ (generate_images_parallel pdTwo "g1" "u1" envsMix
        [0, 1]).results ↔
      ∃ i ∈ [0, 1], workerRecord pdTwo "g1" "u1" envsMix i = some r) ∧
    (generate_images_parallel pdTwo "g1" "u1" envsMix [0, 1]).results.map
      (fun r => r.image_index) = [1] ∧
    (generate_images_parallel pdTwo "g1" "u1" envsFailAll [0, 1]).results = [] :=
  ⟨by decide,
   (generate_images_parallel_failures_isolated pdTwo "g1" "u1" envsMix [0, 1]
     (by decide) (by decide)).1,
   by decide,
   (generate_images_parallel_failures_isolated pdTwo "g1" "u1" envsFailAll
     [0, 1] (by decide) (by decide)).2.1 (by decide)⟩

/-- C8: calling the batch controller with an empty item list returns the
empty sequence immediately, with no worker scheduled (and hence no network
call issued by this call — network traffic only happens inside workers). -/
theorem generate_images_parallel_empty_input (generation_id user_id : String)
    (envs : Nat → WorkerEnv) (order : List Nat) :
    generate_images_parallel ⟨[]⟩ generation_id user_id envs order =
      ⟨[], []⟩ := rfl

/-
src/supabase_db.py, MarketingDB._increment_completed_images (lines 213-232):

    client.table(...).update({"completed_images":
        client.table(...).select("completed_images").eq("id", gid)
              .single().execute().data["completed_images"] + 1})
        .eq("id", gid).execute()

This is TWO database round trips: a SELECT that reads the current counter,
then a separate UPDATE that writes the read value plus one.  Between the two
round trips of one worker, other workers' round trips can interleave.  The
model below runs each worker's increment as the two atomic actions `read w`
(latch the shared counter into worker-local state) and `write w` (store the
latched value + 1 back); a schedule is any interleaving of those actions.
-/

/-- One database round trip of a worker's increment. -/
inductive IncStep where
  | read : Nat → IncStep
  | write : Nat → IncStep
deriving DecidableEq

/-- Execute a schedule of increment round trips against the session row's
`completed_images` counter.  `locals` holds each worker's latched read. -/
def runIncSchedule : List IncStep → Nat → List (Nat × Nat) → Nat
  | [], counter, _ => counter
  | IncStep.read w :: rest, counter, locals =>
    runIncSchedule rest counter ((w, counter) :: locals)
  | IncStep.write w :: rest, counter, locals =>
    match locals.lookup w with
    | some v => runIncSchedule rest (v + 1) locals
    | none => runIncSchedule rest counter locals

/-- A schedule is one complete increment per worker `w < n`: exactly one
read and one write each, with the read before the write. -/
def completeIncrementSchedule (sched : List IncStep) (n : Nat) : Bool :=
  (List.range n).all fun w =>
    sched.count (IncStep.read w) = 1 &&
    sched.count (IncStep.write w) = 1 &&
    sched.indexOf (IncStep.read w) < sched.indexOf (IncStep.write w)

/-- C1 (refuted): the increment is NOT atomic.  Two workers each perform one
complete select-then-update increment, but because the read and the write
are separate round trips the interleaving read 0, read 1, write 0, write 1
loses one update: the final `completed_images` is 1, not the batch size 2.
A fully serialized schedule of the same two increments does yield 2, so the
loss comes precisely from the interleaving. -/
theorem increment_completed_images_lost_update :
    completeIncrementSchedule
      [IncStep.read 0, IncStep.read 1, IncStep.write 0, IncStep.write 1] 2 =
        true ∧
    runIncSchedule
      [IncStep.read 0, IncStep.read 1, IncStep.write 0, IncStep.write 1]
      0 [] = 1 ∧
    completeIncrementSchedule
      [IncStep.read 0, IncStep.write 0, IncStep.read 1, IncStep.write 1] 2 =
        true ∧
    runIncSchedule
      [IncStep.read 0, IncStep.write 0, IncStep.read 1, IncStep.write 1]
      0 [] = 2 ∧
    (1 : Nat) ≠ 2 := by
  refine ⟨by decide, by decide, by decide, by decide, by decide⟩

/-
src/main.py and src/app.py — the blocking orchestrator path (C4).

src/app.py line 47 imports `generate_marketing_assets` from main, i.e. the
legacy stub at src/main.py lines 211-213, which unconditionally raises
"Use generate_marketing_assets_supabase with user_id and generation_id".
The handler at src/app.py lines 367-408 additionally passes the keyword
arguments user_id and generation_id, which the stub's signature
(ppt_text, website_text, image_count) does not accept, so CPython raises
TypeError even before the stub's own raise; either way an Exception reaches
`except Exception as gen_error`, the session is marked failed and the
handler raises HTTPException(500).  (The Supabase orchestrator
generate_marketing_assets_supabase, which does build the
brief/email/prompts/images/performance payload, is not invoked by the HTTP
layer — and would itself raise TypeError at src/main.py line 77 by passing
max_workers to generate_images_parallel, which has no such parameter.)
-/

/-- The payload the blocking contract promises (the return dict of
generate_marketing_assets_supabase); structured text assets abstracted as
their JSON strings. -/
structure BlockingResult where
  generation_id : String
  marketing_brief : String
  email : String
  ad_image_prompts : String
  generated_images : List ImageRecord
  performance_total_time : Nat
  performance_image_generation_time : Nat

/-- src/main.py lines 211-213, generate_marketing_assets (the function the
HTTP layer imports and awaits): it unconditionally raises. -/
def generate_marketing_assets (ppt_text website_text : String)
    (image_count : Nat) : Except String BlockingResult :=
  Except.error "Use generate_marketing_assets_supabase with user_id and generation_id"

/-- src/app.py lines 367-408, the generation phase of the /api/generate
handler: await the orchestrator entry point; on success wrap the payload,
on any Exception mark the session failed and answer HTTP 500. -/
def generate_api_generation_phase (ppt_text website_text user_id
    generation_id : String) (image_count max_images : Nat) :
    Except Nat (String × BlockingResult) :=
  match generate_marketing_assets ppt_text website_text
      (min image_count max_images) with
  | Except.ok results => Except.ok (generation_id, results)
  | Except.error _ => Except.error 500

/-- C4 (refuted): the blocking-mode entry point invoked by the HTTP layer
never returns a result — every valid request ends in the Exception branch
and an HTTP 500, because app.py awaits the legacy generate_marketing_assets
stub (with keyword arguments it does not even accept), which raises
unconditionally. -/
theorem generate_api_generation_phase_always_500
    (ppt_text website_text user_id generation_id : String)
    (image_count max_images : Nat) :
    generate_api_generation_phase ppt_text website_text user_id generation_id
      image_count max_images = Except.error 500 := rfl

/-
src/main.py and src/app.py — the streaming path (C6).

src/app.py line 47 imports `generate_marketing_assets_stream`, i.e. the
legacy stub at src/main.py lines 215-217 which raises before yielding
anything (and is likewise called with user_id/generation_id keyword
arguments it does not accept — TypeError).  The inner async generator of
/api/generate-stream (src/app.py lines 491-536) yields its own `start`
event, then iterates the stub — which raises immediately — and the
`except Exception` arm yields a single `error` event.  The
brief/email/image_start/image/complete events of
generate_marketing_assets_stream_supabase (src/main.py lines 113-208) are
never produced on this path; that orchestrator would itself raise TypeError
at line 176 by passing max_concurrent to generate_images_parallel_async.
-/

/-- Event kinds of the streaming protocol. -/
inductive StreamEvent where
  | start : StreamEvent
  | brief : StreamEvent
  | email : StreamEvent
  | image_start : Nat → StreamEvent
  | image : StreamEvent
  | complete : StreamEvent
  | error : StreamEvent
deriving DecidableEq

/-- src/main.py lines 215-217, generate_marketing_assets_stream (the
generator the HTTP layer iterates): it raises before its first yield, so it
produces no events. -/
def generate_marketing_assets_stream (ppt_text website_text : String)
    (image_count : Nat) : Except String (List StreamEvent) :=
  Except.error "Use generate_marketing_assets_stream_supabase with user_id and generation_id"

/-- src/app.py lines 491-536: the event sequence the /api/generate-stream
response body emits — a start event, then the inner generator's events and a
final complete event, or, if the generator raises, a single error event. -/
def generate_stream_api_events (ppt_text website_text user_id
    generation_id : String) (image_count max_images : Nat) :
    List StreamEvent :=
  StreamEvent.start ::
    (match generate_marketing_assets_stream ppt_text website_text
        (min image_count max_images) with
    | Except.ok events => events ++ [StreamEvent.complete]
    | Except.error _ => [StreamEvent.error])

/-- C6 (refuted in its ordering half): for every input the emitted stream is
exactly [start, error] — the generator raises before any brief, email,
image_start or image event can be produced, and the error arm emits the
terminal error event.  (The terminal-event half of the claim holds: the
last event is always exactly one of complete or error — here always
error.) -/
theorem generate_stream_api_events_start_error
    (ppt_text website_text user_id generation_id : String)
    (image_count max_images : Nat) :
    generate_stream_api_events ppt_text website_text user_id generation_id
        image_count max_images = [StreamEvent.start, StreamEvent.error] ∧
    (generate_stream_api_events ppt_text website_text user_id generation_id
        image_count max_images).getLast? = some StreamEvent.error ∧
    StreamEvent.brief ∉ generate_stream_api_events ppt_text website_text
      user_id generation_id image_count max_images :=
  ⟨rfl, rfl, by
    simp [generate_stream_api_events, generate_marketing_assets_stream]⟩
